import Mathlib

/-!
Verification of the `goapp` application-base library (package `goapp`:
the main application file, `built_in_commands.go`, and the database
schema file) against its natural-language specification.

The Go code is shallowly embedded: pure computations become Lean
functions, in-place mutation of the settings structure becomes explicit
state passing (a function returning the updated record), fallible calls
return `Option String` error values (mirroring Go's `error`, `none` =
Go `nil`), and the external collaborators (`mttools` file and YAML
helpers, cobra, gorm, the OS signal channel) are abstracted as explicit
parameters recording their results.

`time.Duration` values are modelled as natural numbers of nanoseconds,
exactly as Go represents them; `time.Second = 10^9`.
-/

/-! ## Data model -/

/-- One Go `time.Second` in nanoseconds (Go's `time.Duration` unit). -/
def goSecond : Nat := 1000000000

/-- The base settings section, `AppSettingsBase`.  Its struct declaration
lives in a settings source file; every field listed here is taken from
its uses in the sources (`loadSettings`, `NewAppBase`, `buildRunCmd`,
`buildInstallCmd`, `buildInfoCmd`).  Go zero values are the field
defaults.  `WebserverPort` is an unsigned integer in Go
(`strconv.FormatUint(uint64(port), 10)`), modelled as `Nat`. -/
structure AppSettingsBase where
  Production : Bool := false
  BaseUrl : String := ""
  WebserverHostname : String := ""
  WebserverPort : Nat := 0
  WebserverCookieSecret : String := ""
  LoadedFromFile : Bool := false
  ServiceName : String := ""
  ServiceUser : String := ""
  ServiceGroup : String := ""
  InitialRootPassword : String := ""
  LogSql : Bool := false
deriving Repr, DecidableEq

/-! ## Settings loading (`AppBase.loadSettings`) -/

/-- The error message produced by `loadSettings` for a production cookie
secret that is non-empty but shorter than 32 bytes:
`fmt.Errorf("webserver_cookie_secret should be at least 32 characters long in production. You have %d.", len(...))`. -/
def cookieTooShortMsg (n : Nat) : String :=
  "webserver_cookie_secret should be at least 32 characters long in production. You have "
    ++ toString n ++ "."

/-- The error message produced by `loadSettings` for an empty production
cookie secret: `errors.New("webserver_cookie_secret required in production")`. -/
def cookieRequiredMsg : String := "webserver_cookie_secret required in production"

/-- The error message produced by `loadSettings` for an empty production
base URL: `errors.New("base_url required in production")`. -/
def baseUrlRequiredMsg : String := "base_url required in production"

/-- The settings post-processing performed by `AppBase.loadSettings`
after the YAML file has been read into the settings structure (the code
after the `// Settings post-processing` comment).  Go mutates
`app.baseSettings` in place and returns an `error`; here the same
computation returns the error together with the resulting state of the
base settings.  Go `len` on a string counts bytes, hence
`String.utf8ByteSize`; `strconv.Itoa(int(port))` is the decimal
representation, hence `Nat.repr`. -/
def loadSettingsPost (s0 : AppSettingsBase) : Option String × AppSettingsBase :=
  let s := { s0 with LoadedFromFile := true }
  if s.Production then
    -- require some settings in PRODUCTION
    if s.BaseUrl = "" then
      (some baseUrlRequiredMsg, s)
    else if s.WebserverCookieSecret = "" then
      (some cookieRequiredMsg, s)
    else if s.WebserverCookieSecret.utf8ByteSize < 32 then
      (some (cookieTooShortMsg s.WebserverCookieSecret.utf8ByteSize), s)
    else
      (none, s)
  else
    -- or use pre-defined values in DEV
    let s :=
      if s.BaseUrl = "" then
        { s with BaseUrl := "http://" ++ s.WebserverHostname ++ ":" ++ Nat.repr s.WebserverPort }
      else s
    let s :=
      if s.WebserverCookieSecret = "" then
        { s with WebserverCookieSecret := "DEFAULT_DEV_SECRET" }
      else s
    (none, s)

/-- `AppBase.loadSettings`.  The interaction with the filesystem and the
YAML parser (`mttools.IsFileExists`, `mttools.LoadYamlSettingFromFile`)
is abstracted: `fileExists` is whether the settings file exists at
`app.AppSettingsFilename`, and `parsed` is the outcome of the YAML read
into the settings structure (`Except.ok s` supplies the parsed base
section, `Except.error e` a read/parse failure).  `orig` is the base
settings state before the call, returned unchanged on a read failure. -/
def loadSettings (fileExists : Bool) (parsed : Except String AppSettingsBase)
    (orig : AppSettingsBase) (filename : String) : Option String × AppSettingsBase :=
  if fileExists then
    match parsed with
    | .error e => (some e, orig)
    | .ok s => loadSettingsPost s
  else
    (some ("File not found: " ++ filename), orig)

/-- A production settings state whose cookie secret is empty (length 0,
hence strictly less than 32) and whose base URL is present. -/
def exProdEmptySecret : AppSettingsBase :=
  { Production := true, BaseUrl := "https://example.com" }

/-- A production settings state with a five-byte cookie secret. -/
def exProdShortSecret : AppSettingsBase :=
  { Production := true, BaseUrl := "https://example.com",
    WebserverCookieSecret := "short" }

/-- A production settings state with a 32-byte cookie secret. -/
def exProdGoodSecret : AppSettingsBase :=
  { Production := true, BaseUrl := "https://example.com",
    WebserverCookieSecret := "0123456789abcdef0123456789abcdef" }

/-- A non-production settings state with blank base URL and secret and
the default hostname and port of `checkDefaultValues`. -/
def exDevBlank : AppSettingsBase :=
  { WebserverHostname := "localhost", WebserverPort := 15115 }

/-! ## Go contexts

A Go `context.Context`, restricted to what the sources build: a
cancellable context (`context.WithCancel`) and a timeout derivation
(`context.WithTimeout`).  A context is done when it has been cancelled
or its absolute deadline (nanoseconds) has passed; `WithTimeout` of an
already-done parent yields an immediately-done child, as in Go. -/

structure GoCtx where
  cancelled : Bool
  deadline : Option Nat
deriving Repr, DecidableEq

/-- `context.Background()`: never cancelled, no deadline. -/
def contextBackground : GoCtx := { cancelled := false, deadline := none }

/-- The effect of calling the cancel function returned by
`context.WithCancel` (the application stores it as `appShutdownF`). -/
def cancelCtx (c : GoCtx) : GoCtx := { c with cancelled := true }

/-- `context.WithTimeout(parent, timeout)` called at absolute time
`now`: the child inherits the parent's cancellation and carries the
earlier of the parent's deadline and `now + timeout`. -/
def contextWithTimeout (parent : GoCtx) (now timeout : Nat) : GoCtx :=
  { cancelled := parent.cancelled,
    deadline := some (match parent.deadline with
      | some d => min d (now + timeout)
      | none => now + timeout) }

/-- The first time at or after `now` at which the context is done
(`none` = never).  A cancelled context is done immediately. -/
def ctxFirstDone (c : GoCtx) (now : Nat) : Option Nat :=
  if c.cancelled then some now
  else c.deadline.map (fun d => max now d)

/-- `http.Server.Shutdown(ctx)` called at time `now` when the last
in-flight connection becomes idle at time `drainCompleteAt`: returns
`nil` if draining completes no later than the context is done, and the
context's error otherwise (forced shutdown).  A server that is already
idle (`drainCompleteAt ≤ now`) shuts down cleanly even under a done
context, as in Go. -/
def serverShutdown (c : GoCtx) (now drainCompleteAt : Nat) : Option String :=
  match ctxFirstDone c now with
  | none => none
  | some t =>
    if drainCompleteAt ≤ t then none
    else some (if c.cancelled then "context canceled" else "context deadline exceeded")

/-! ## Application instance (`AppBase`, `NewAppBase`) -/

/-- A Go struct value offered as the application settings: whether its
type embeds `AppSettingsBase` (what `mttools.IsStructEmbeds` inspects
reflectively), the embedded base section, and the caller-defined
extension fields (opaque payload). -/
structure GoStructValue where
  embedsAppSettingsBase : Bool
  base : AppSettingsBase
  ext : Nat
deriving Repr, DecidableEq

/-- The `interface{}` argument of `NewAppBase`: a nil pointer or a
pointer to a settings struct value. -/
inductive GoSettingsArg where
  | nil
  | ptr (v : GoStructValue)
deriving Repr, DecidableEq

/-- The `AppBase` fields the verified claims touch.  In Go,
`baseSettings` is a pointer into the `AppSettings` struct; here both
views are stored and `NewAppBase` establishes that they agree. -/
structure AppBase where
  ExecutableName : String
  AppName : String
  Version : String
  AppSettingsFilename : String
  appSettings : GoStructValue
  baseSettings : AppSettingsBase
  BaseContext : GoCtx
  ShutdownTimeout : Nat
deriving Repr, DecidableEq

/-- Modelled from the spec: `AppSettingsBase.checkDefaultValues` is
declared in a settings source file that is not among the sources; the
spec says missing (zero-valued) base settings receive the default
values supplied by `NewAppBase` (hostname, port, service identity,
initial root password).  Modelled as: each zero-valued field named in
the `NewAppBase` defaults literal is replaced by the corresponding
field of `defaults`. -/
def checkDefaultValues (s defaults : AppSettingsBase) : AppSettingsBase :=
  { s with
    WebserverHostname :=
      if s.WebserverHostname = "" then defaults.WebserverHostname else s.WebserverHostname,
    WebserverPort :=
      if s.WebserverPort = 0 then defaults.WebserverPort else s.WebserverPort,
    ServiceName := if s.ServiceName = "" then defaults.ServiceName else s.ServiceName,
    ServiceUser := if s.ServiceUser = "" then defaults.ServiceUser else s.ServiceUser,
    ServiceGroup := if s.ServiceGroup = "" then defaults.ServiceGroup else s.ServiceGroup,
    InitialRootPassword :=
      if s.InitialRootPassword = "" then defaults.InitialRootPassword
      else s.InitialRootPassword }

/-- Outcome of `NewAppBase`: `log.Fatalln` terminates the process, else
the constructed application is returned. -/
inductive NewAppBaseResult where
  | fatal (msg : String)
  | ok (app : AppBase)
deriving Repr, DecidableEq

/-- The defaults literal `NewAppBase` passes to `checkDefaultValues`.
`ServiceName` is `app.ExecutableName`, read before that field is
assigned its placeholder, i.e. still the zero value `""`;
`InitialRootPassword` is `mttools.RandomString(20)`, abstracted as the
parameter `randomRootPassword`. -/
def newAppBaseServiceDefaults (executableName randomRootPassword : String) :
    AppSettingsBase :=
  { WebserverHostname := "localhost", WebserverPort := 15115,
    ServiceName := executableName, ServiceUser := "www-data",
    ServiceGroup := "www-data", InitialRootPassword := randomRootPassword }

/-- `NewAppBase(defaultSettings)`.  A nil argument or a settings struct
that does not embed `AppSettingsBase` is fatal; otherwise the
application stores the settings, points `baseSettings` at the embedded
base field (so `checkDefaultValues` updates both views), creates the
cancellable base context from `context.Background()`, and sets the
shutdown timeout to 10 seconds. -/
def NewAppBase (defaultSettings : GoSettingsArg) (randomRootPassword : String) :
    NewAppBaseResult :=
  match defaultSettings with
  | .nil => .fatal "defaultSettings should not be empty"
  | .ptr v =>
    if v.embedsAppSettingsBase then
      let newBase := checkDefaultValues v.base (newAppBaseServiceDefaults "" randomRootPassword)
      .ok { ExecutableName := "UNSET_ExecutableName",
            AppName := "UNSET_AppName",
            Version := "DEV",
            AppSettingsFilename := ".settings.yml",
            appSettings := { v with base := newBase },
            baseSettings := newBase,
            BaseContext := contextBackground,
            ShutdownTimeout := 10 * goSecond }
    else .fatal ("settings structure should embed " ++ "AppSettingsBase")

/-- A settings struct value that embeds `AppSettingsBase`. -/
def exGoodArg : GoStructValue :=
  { embedsAppSettingsBase := true, base := { WebserverHostname := "example.org" }, ext := 7 }

/-- A settings struct value that does not embed `AppSettingsBase`. -/
def exBadArg : GoStructValue :=
  { embedsAppSettingsBase := false, base := {}, ext := 0 }

/-! ## The `run` subcommand (`buildRunCmd`) -/

/-- A `net.Listener`, opaque to the claims; only its identity matters
to the `BaseContext` accessor. -/
def GoListener : Type := Nat

/-- The `http.Server` fields set by `buildRunCmd` (the handler is the
application's web router, opaque to the claims and omitted). -/
structure HttpServer where
  Addr : String
  WriteTimeout : Nat
  ReadTimeout : Nat
  IdleTimeout : Nat
  BaseContext : GoListener → GoCtx

/-- The `http.Server` literal constructed by the `run` subcommand:
address `hostname ++ ":" ++ decimal port`
(`strconv.FormatUint(uint64(port), 10)`), write/read/idle timeouts of
10/20/60 seconds, and a `BaseContext` function returning the
application's base context for every listener. -/
def buildRunHttpServer (app : AppBase) : HttpServer :=
  let address := app.baseSettings.WebserverHostname ++ ":"
    ++ Nat.repr app.baseSettings.WebserverPort
  { Addr := address
    WriteTimeout := 10 * goSecond
    ReadTimeout := 20 * goSecond
    IdleTimeout := 60 * goSecond
    BaseContext := fun _ => app.BaseContext }

/-- Outcome of the signal-driven shutdown tail of the `run` handler:
normal return or `log.Fatal` process termination. -/
inductive RunOutcome where
  | ok
  | fatal (msg : String)
deriving Repr, DecidableEq

/-- The shutdown sequence the `run` handler executes after the signal
channel delivers (`<-cancel_channel` at absolute time `now`):
`app.appShutdownF()` cancels the base context, then
`context.WithTimeout(app.BaseContext, app.ShutdownTimeout)` derives the
shutdown context from that (now cancelled) base context, then
`httpSrv.Shutdown(shutdownCtx)` is called; a shutdown error is fatal
(`log.Fatal("Server forced to shutdown:", err)`).  `drainCompleteAt` is
the time the last in-flight connection becomes idle.  The resulting
application state (with the cancelled base context) is returned
alongside the outcome. -/
def runCmdShutdownPhase (app : AppBase) (now drainCompleteAt : Nat) :
    RunOutcome × AppBase :=
  let app := { app with BaseContext := cancelCtx app.BaseContext }
  let shutdownCtx := contextWithTimeout app.BaseContext now app.ShutdownTimeout
  match serverShutdown shutdownCtx now drainCompleteAt with
  | none => (.ok, app)
  | some e => (.fatal ("Server forced to shutdown:" ++ e), app)

/-- An application as the `run` subcommand sees it after `NewAppBase`:
base context freshly derived from `context.Background()`, shutdown
timeout at its 10-second default. -/
def exRunApp : AppBase :=
  { ExecutableName := "app", AppName := "App", Version := "DEV",
    AppSettingsFilename := ".settings.yml",
    appSettings := { embedsAppSettingsBase := true, base := {}, ext := 0 },
    baseSettings := {},
    BaseContext := contextBackground,
    ShutdownTimeout := 10 * goSecond }

/-! ## The `init` subcommand (`buildInitCmd`) -/

/-- The filesystem state the `init` subcommand interacts with: the
content of the settings file at the configured path, if it exists. -/
structure InitState where
  settingsFileContent : Option String
deriving Repr, DecidableEq

/-- Observable outcome of the `init` subcommand's `RunE`: the returned
error, the resulting filesystem state, and whether `saveSettings` and
the `InitF` hook were invoked. -/
structure InitOutcome where
  err : Option String
  state : InitState
  saveSettingsCalled : Bool
  initFCalled : Bool
deriving Repr, DecidableEq

/-- The `init` subcommand's `RunE`: if the settings file exists it
returns an error at once; otherwise `saveSettings` writes the defaults
(abstracted as `save`, returning its error and the new filesystem
state), and on success the `InitF` hook runs if set
(`hasInitF`/`initFResult`). -/
def initCmdRunE (st : InitState) (filename : String)
    (save : InitState → Option String × InitState)
    (hasInitF : Bool) (initFResult : Option String) : InitOutcome :=
  match st.settingsFileContent with
  | some _ =>
    { err := some ("Can not initialize existing file: " ++ filename),
      state := st, saveSettingsCalled := false, initFCalled := false }
  | none =>
    let r := save st
    match r.1 with
    | some e =>
      { err := some e, state := r.2, saveSettingsCalled := true, initFCalled := false }
    | none =>
      if hasInitF then
        { err := initFResult, state := r.2, saveSettingsCalled := true, initFCalled := true }
      else
        { err := none, state := r.2, saveSettingsCalled := true, initFCalled := false }

/-- A filesystem state in which the settings file already exists. -/
def exInitState : InitState := { settingsFileContent := some "hostname: h" }

/-! ## The root command's persistent pre-hook (`buildRootCmd`) -/

/-- Outcome of `PersistentPreRunE`: `log.Fatalf` process termination, a
returned error, or normal continuation (recording whether the settings
file was loaded). -/
inductive PreRunOutcome where
  | fatal (msg : String)
  | err (msg : String)
  | ok (settingsLoaded : Bool)
deriving Repr, DecidableEq

/-- The subcommands that may run without a settings file
(`no_settings_required_cmd_list`). -/
def noSettingsRequiredCmdList : List String := ["init", "version", "info", "help"]

/-- The `log.Fatalf` message of the pre-hook, with
`app.AppSettingsFilename` concatenated into the format string and
`app.ExecutableName` substituted for `%s`. -/
def noSettingsFatalMsg (filename execName : String) : String :=
  "No " ++ filename ++ " file found. Please create one or use `" ++ execName
    ++ " init` command.\n"

/-- The root command's `PersistentPreRunE`: if the settings file exists
it is loaded (`loadErr` is the `loadSettings` error, propagated);
otherwise, commands outside `noSettingsRequiredCmdList`
(`mttools.InSlice`) terminate fatally, and commands inside it proceed
without settings.  In the non-fatal paths the `PreCmdF` hook then runs
(`preCmdResult` is its error, `none` when absent or successful). -/
def rootPersistentPreRunE (fileExists : Bool) (loadErr : Option String)
    (cmdName filename execName : String) (preCmdResult : Option String) :
    PreRunOutcome :=
  if fileExists then
    match loadErr with
    | some e => .err e
    | none =>
      match preCmdResult with
      | some e => .err e
      | none => .ok true
  else
    if noSettingsRequiredCmdList.contains cmdName then
      match preCmdResult with
      | some e => .err e
      | none => .ok false
    else
      .fatal (noSettingsFatalMsg filename execName)

/-! ## Database schema close (`dbSchemaType.Close`) -/

/-- `const dbFileName = "data.db"`. -/
def dbFileName : String := "data.db"

/-- The message logged by `dbSchemaType.Close`
(`log.Printf("Database %s closed\n", dbFileName)`). -/
def dbClosedMsg : String := "Database " ++ dbFileName ++ " closed\n"

/-- Observable outcome of `dbSchemaType.Close`: whether the underlying
`sql.DB` handle's `Close` was invoked, the resulting `db` field, and
the messages logged. -/
structure DbCloseResult where
  sqlCloseCalled : Bool
  db : Option Unit
  logged : List String
deriving Repr, DecidableEq

/-- `dbSchemaType.Close`: `sqlDB, err := schema.db.DB()` is abstracted
by `dbErr`, the error that call returned.  The source invokes
`sqlDB.Close()` inside `if err != nil` — i.e. exactly when obtaining
the handle failed — and unconditionally logs the closed message and
sets `schema.db = nil`. -/
def dbSchemaClose (dbErr : Option String) : DbCloseResult :=
  let sqlCloseCalled :=
    match dbErr with
    | some _ => true
    | none => false
  { sqlCloseCalled := sqlCloseCalled,
    db := none,
    logged := [dbClosedMsg] }

/-! ## Helper lemmas on strings -/

/-- Associativity of string concatenation, from `String.data_append`. -/
theorem string_append_assoc (a b c : String) : a ++ b ++ c = a ++ (b ++ c) := by
  apply String.ext
  simp [String.data_append, List.append_assoc]

/-- Splitting a string literal `L` as `a ++ m ++ c` splits `L ++ t` as
`a ++ m ++ (c ++ t)`: used to exhibit a fixed phrase inside a message
that ends with a variable part. -/
theorem string_append_decomp (L m a c t : String) (h : a ++ m ++ c = L) :
    L ++ t = a ++ m ++ (c ++ t) := by
  subst h
  simp [string_append_assoc]

/-! ## Claim C1 (code bug): the shutdown-timeout window -/

/-- Claim C1: the signal-handling sequence of the `run` subcommand is
as described (cancel the base context, derive the shutdown context from
the base context with the configured timeout, ask the listener to shut
down, fatal on error) — but the claim's consequence fails: the
shutdown-timeout window is NOT available for draining.  Deriving the
shutdown context from the just-cancelled base context yields an
already-cancelled context, so a connection needing even one nanosecond
of the 10-second window forces a fatal exit: at `now = 0` with
`drainCompleteAt = 1 ≤ 10s`, `Shutdown` returns `context canceled` and
the process terminates fatally. -/
theorem runCmd_shutdown_window_unavailable :
    (contextWithTimeout (cancelCtx contextBackground) 0 (10 * goSecond)).cancelled = true ∧
    (runCmdShutdownPhase exRunApp 0 1).1
      = .fatal "Server forced to shutdown:context canceled" ∧
    1 ≤ 10 * goSecond :=
  ⟨rfl, rfl, by decide⟩

/-! ## Claim C2 (corrected): production cookie-secret validation -/

/-- Claim C2, counterexample: for a production settings input with an
empty cookie secret (length 0, which is strictly less than 32),
`loadSettings` fails not with a length-describing error but with the
plain "required" error, whose message contains no digit at all (so it
cannot describe the 32-character length requirement) and differs from
the length-describing message. -/
theorem loadSettings_empty_secret_cex :
    exProdEmptySecret.WebserverCookieSecret.utf8ByteSize < 32 ∧
    (loadSettings true (.ok exProdEmptySecret) {} ".settings.yml").1
      = some cookieRequiredMsg ∧
    cookieRequiredMsg ≠ cookieTooShortMsg 0 ∧
    ∀ c ∈ cookieRequiredMsg.data, ¬ c.isDigit := by
  refine ⟨by decide, rfl, by decide, by decide⟩

/-- Claim C2, amended: for every settings input read and parsed
successfully and loaded in production mode with a non-empty base URL,
if the cookie secret is non-empty but shorter than 32 bytes then
`loadSettings` returns an error whose message describes the length
requirement (it states the secret should be "at least 32 characters
long" and reports the actual length); an empty cookie secret instead
produces the distinct "required" error of the counterexample. -/
theorem loadSettings_prod_short_secret (fileExists : Bool)
    (parsed : Except String AppSettingsBase)
    (orig s : AppSettingsBase) (filename : String)
    (hfe : fileExists = true) (hp : parsed = .ok s)
    (hprod : s.Production = true) (hurl : s.BaseUrl ≠ "")
    (hne : s.WebserverCookieSecret ≠ "")
    (hlen : s.WebserverCookieSecret.utf8ByteSize < 32) :
    (loadSettings fileExists parsed orig filename).1
      = some (cookieTooShortMsg s.WebserverCookieSecret.utf8ByteSize) ∧
    ∃ a b, cookieTooShortMsg s.WebserverCookieSecret.utf8ByteSize
      = a ++ "at least 32 characters long" ++ b := by
  subst hfe hp
  constructor
  · simp [loadSettings, loadSettingsPost, hprod, hurl, hne, hlen]
  · exact ⟨"webserver_cookie_secret should be ",
      " in production. You have " ++ toString s.WebserverCookieSecret.utf8ByteSize ++ ".",
      string_append_decomp _ _ _ _ _ rfl⟩

/-- Witness for the amended claim C2 at a concrete five-byte secret. -/
theorem loadSettings_prod_short_secret_witness :
    (loadSettings true (.ok exProdShortSecret) {} ".settings.yml").1
      = some (cookieTooShortMsg exProdShortSecret.WebserverCookieSecret.utf8ByteSize) ∧
    ∃ a b, cookieTooShortMsg exProdShortSecret.WebserverCookieSecret.utf8ByteSize
      = a ++ "at least 32 characters long" ++ b :=
  loadSettings_prod_short_secret true (.ok exProdShortSecret) {} exProdShortSecret
    ".settings.yml" rfl rfl rfl (by decide) (by decide) (by decide)

/-! ## Claim C3 (confirmed): production validation succeeds -/

/-- Claim C3: for every settings input read and parsed successfully and
loaded in production mode with a non-empty base URL and a cookie secret
of length at least 32 bytes, `loadSettings` returns nil (no error). -/
theorem loadSettings_prod_ok (fileExists : Bool)
    (parsed : Except String AppSettingsBase)
    (orig s : AppSettingsBase) (filename : String)
    (hfe : fileExists = true) (hp : parsed = .ok s)
    (hprod : s.Production = true) (hurl : s.BaseUrl ≠ "")
    (hlen : 32 ≤ s.WebserverCookieSecret.utf8ByteSize) :
    (loadSettings fileExists parsed orig filename).1 = none := by
  subst hfe hp
  have hne : s.WebserverCookieSecret ≠ "" := by
    intro h
    rw [h] at hlen
    exact absurd hlen (by decide)
  simp [loadSettings, loadSettingsPost, hprod, hurl, hne, Nat.not_lt.mpr hlen]

/-- Witness for claim C3 at a concrete 32-byte secret. -/
theorem loadSettings_prod_ok_witness :
    (loadSettings true (.ok exProdGoodSecret) {} ".settings.yml").1 = none :=
  loadSettings_prod_ok true (.ok exProdGoodSecret) {} exProdGoodSecret
    ".settings.yml" rfl rfl rfl (by decide) (by decide)

/-! ## Claim C4 (confirmed): non-production defaulting -/

/-- Claim C4: for every settings input read and parsed successfully and
loaded in non-production mode, `loadSettings` returns nil; a blank base
URL becomes `"http://" ++ hostname ++ ":" ++ decimal port`, and a blank
cookie secret becomes the fixed development placeholder. -/
theorem loadSettings_dev_defaults (fileExists : Bool)
    (parsed : Except String AppSettingsBase)
    (orig s : AppSettingsBase) (filename : String)
    (hfe : fileExists = true) (hp : parsed = .ok s)
    (hprod : s.Production = false) :
    (loadSettings fileExists parsed orig filename).1 = none ∧
    (s.BaseUrl = "" → (loadSettings fileExists parsed orig filename).2.BaseUrl
      = "http://" ++ s.WebserverHostname ++ ":" ++ Nat.repr s.WebserverPort) ∧
    (s.WebserverCookieSecret = "" →
      (loadSettings fileExists parsed orig filename).2.WebserverCookieSecret
        = "DEFAULT_DEV_SECRET") := by
  subst hfe hp
  by_cases hb : s.BaseUrl = "" <;> by_cases hc : s.WebserverCookieSecret = "" <;>
    simp [loadSettings, loadSettingsPost, hprod, hb, hc]

/-- Witness for claim C4 at a concrete blank development settings
state: the derived URL is `http://localhost:15115`. -/
theorem loadSettings_dev_defaults_witness :
    (loadSettings true (.ok exDevBlank) {} ".settings.yml").1 = none ∧
    (exDevBlank.BaseUrl = "" →
      (loadSettings true (.ok exDevBlank) {} ".settings.yml").2.BaseUrl
        = "http://" ++ exDevBlank.WebserverHostname ++ ":"
            ++ Nat.repr exDevBlank.WebserverPort) ∧
    (exDevBlank.WebserverCookieSecret = "" →
      (loadSettings true (.ok exDevBlank) {} ".settings.yml").2.WebserverCookieSecret
        = "DEFAULT_DEV_SECRET") :=
  loadSettings_dev_defaults true (.ok exDevBlank) {} exDevBlank ".settings.yml"
    rfl rfl rfl

/-! ## Claim C5 (confirmed): `init` refuses an existing file -/

/-- Claim C5: whenever the settings file already exists, the `init`
subcommand returns an error, leaves the filesystem state untouched, and
invokes neither `saveSettings` nor the `InitF` hook. -/
theorem initCmd_existing_file (st : InitState) (filename : String)
    (save : InitState → Option String × InitState) (hasInitF : Bool)
    (initFResult : Option String) (c : String)
    (h : st.settingsFileContent = some c) :
    initCmdRunE st filename save hasInitF initFResult
      = { err := some ("Can not initialize existing file: " ++ filename),
          state := st, saveSettingsCalled := false, initFCalled := false } := by
  simp [initCmdRunE, h]

/-- Witness for claim C5: a save function that would overwrite the file
is never consulted when the file already exists. -/
theorem initCmd_existing_file_witness :
    initCmdRunE exInitState ".settings.yml"
        (fun _ => (none, { settingsFileContent := some "overwritten" })) true none
      = { err := some ("Can not initialize existing file: " ++ ".settings.yml"),
          state := exInitState, saveSettingsCalled := false, initFCalled := false } :=
  initCmd_existing_file exInitState ".settings.yml"
    (fun _ => (none, { settingsFileContent := some "overwritten" })) true none
    "hostname: h" rfl

/-! ## Claim C6 (confirmed): the root pre-hook and the settings file -/

/-- Claim C6: the root-level persistent pre-hook loads the settings
file when it exists (propagating its error); when it does not exist,
every subcommand outside `{init, version, info, help}` terminates
fatally with a message mentioning the `init` command, and every
subcommand inside that set proceeds without settings. -/
theorem rootPreRun_spec (fileExists : Bool) (loadErr preCmdResult : Option String)
    (cmdName filename execName : String) :
    (fileExists = true → ∀ e, loadErr = some e →
      rootPersistentPreRunE fileExists loadErr cmdName filename execName preCmdResult
        = .err e) ∧
    (fileExists = true → loadErr = none → preCmdResult = none →
      rootPersistentPreRunE fileExists loadErr cmdName filename execName preCmdResult
        = .ok true) ∧
    (fileExists = false → noSettingsRequiredCmdList.contains cmdName = false →
      rootPersistentPreRunE fileExists loadErr cmdName filename execName preCmdResult
        = .fatal (noSettingsFatalMsg filename execName) ∧
      ∃ a b, noSettingsFatalMsg filename execName = a ++ "init" ++ b) ∧
    (fileExists = false → noSettingsRequiredCmdList.contains cmdName = true →
      preCmdResult = none →
      rootPersistentPreRunE fileExists loadErr cmdName filename execName preCmdResult
        = .ok false) := by
  refine ⟨?_, ?_, ?_, ?_⟩
  · rintro rfl e rfl; rfl
  · rintro rfl rfl rfl; rfl
  · rintro rfl hc
    constructor
    · unfold rootPersistentPreRunE
      rw [hc]
      rfl
    · refine ⟨"No " ++ filename ++ " file found. Please create one or use `"
        ++ execName ++ " ", "` command.\n", ?_⟩
      have hlit : (" init` command.\n" : String) = " " ++ ("init" ++ "` command.\n") := rfl
      simp only [noSettingsFatalMsg, hlit, string_append_assoc]
  · rintro rfl hc rfl
    unfold rootPersistentPreRunE
    rw [hc]
    rfl

/-- Witness for claim C6: `run` without a settings file is fatal with an
init-mentioning message, `version` proceeds without settings, and a
load error on an existing file is propagated. -/
theorem rootPreRun_spec_witness :
    rootPersistentPreRunE false none "run" ".settings.yml" "app" none
      = .fatal (noSettingsFatalMsg ".settings.yml" "app") ∧
    (∃ a b, noSettingsFatalMsg ".settings.yml" "app" = a ++ "init" ++ b) ∧
    rootPersistentPreRunE false none "version" ".settings.yml" "app" none = .ok false ∧
    rootPersistentPreRunE true (some "bad yaml") "run" ".settings.yml" "app" none
      = .err "bad yaml" :=
  ⟨((rootPreRun_spec false none none "run" ".settings.yml" "app").2.2.1 rfl (by decide)).1,
   ((rootPreRun_spec false none none "run" ".settings.yml" "app").2.2.1 rfl (by decide)).2,
   (rootPreRun_spec false none none "version" ".settings.yml" "app").2.2.2 rfl (by decide) rfl,
   (rootPreRun_spec true (some "bad yaml") none "run" ".settings.yml" "app").1 rfl
     "bad yaml" rfl⟩

/-! ## Claim C7 (confirmed): the `run` HTTP server literal -/

/-- Claim C7: for every execution of the `run` subcommand, the HTTP
server is constructed with address `hostname ++ ":" ++ decimal port`,
write timeout exactly 10 seconds, read timeout exactly 20 seconds, idle
timeout exactly 60 seconds, and a `BaseContext` function returning the
application's base context for every listener. -/
theorem buildRunCmd_server_spec (app : AppBase) :
    (buildRunHttpServer app).Addr
      = app.baseSettings.WebserverHostname ++ ":"
          ++ Nat.repr app.baseSettings.WebserverPort ∧
    (buildRunHttpServer app).WriteTimeout = 10 * goSecond ∧
    (buildRunHttpServer app).ReadTimeout = 20 * goSecond ∧
    (buildRunHttpServer app).IdleTimeout = 60 * goSecond ∧
    ∀ l : GoListener, (buildRunHttpServer app).BaseContext l = app.BaseContext :=
  ⟨rfl, rfl, rfl, rfl, fun _ => rfl⟩

/-! ## Claim C8 (confirmed): the settings-embedding invariant -/

/-- Claim C8: `NewAppBase` terminates fatally on a nil settings value
and on a settings struct whose type does not embed `AppSettingsBase`;
otherwise it returns an application whose `baseSettings` agrees with
the embedded base field of the stored settings (in Go, a pointer into
it), so every constructed application satisfies the embedding
invariant. -/
theorem newAppBase_embeds_invariant (arg : GoSettingsArg) (rnd : String) :
    (arg = .nil → NewAppBase arg rnd = .fatal "defaultSettings should not be empty") ∧
    (∀ v, arg = .ptr v → v.embedsAppSettingsBase = false →
      NewAppBase arg rnd
        = .fatal ("settings structure should embed " ++ "AppSettingsBase")) ∧
    (∀ v, arg = .ptr v → v.embedsAppSettingsBase = true →
      ∃ app, NewAppBase arg rnd = .ok app
        ∧ app.baseSettings = app.appSettings.base) := by
  refine ⟨?_, ?_, ?_⟩
  · rintro rfl; rfl
  · rintro v rfl hv; simp [NewAppBase, hv]
  · rintro v rfl hv
    unfold NewAppBase
    simp only [hv, if_true]
    exact ⟨_, rfl, rfl⟩

/-- Witness for claim C8: both fatal branches and, for a concrete
embedding argument, a constructed application satisfying the
invariant. -/
theorem newAppBase_embeds_invariant_witness :
    NewAppBase .nil "r" = .fatal "defaultSettings should not be empty" ∧
    NewAppBase (.ptr exBadArg) "r"
      = .fatal ("settings structure should embed " ++ "AppSettingsBase") ∧
    ∃ app, NewAppBase (.ptr exGoodArg) "r" = .ok app
      ∧ app.baseSettings = app.appSettings.base :=
  ⟨(newAppBase_embeds_invariant .nil "r").1 rfl,
   (newAppBase_embeds_invariant (.ptr exBadArg) "r").2.1 exBadArg rfl rfl,
   (newAppBase_embeds_invariant (.ptr exGoodArg) "r").2.2 exGoodArg rfl rfl⟩

/-! ## Claim C9 (confirmed): `dbSchemaType.Close` -/

/-- Claim C9: `dbSchemaType.Close` invokes the underlying SQL
connection's `Close` exactly in the branch where obtaining the handle
returned a non-nil error, never when the handle was obtained
successfully; in every case the `db` field becomes nil and a message
containing "closed" is logged. -/
theorem dbSchemaClose_spec (dbErr : Option String) :
    (dbSchemaClose dbErr).sqlCloseCalled = dbErr.isSome ∧
    (dbSchemaClose dbErr).db = none ∧
    (dbSchemaClose dbErr).logged = [dbClosedMsg] ∧
    ∃ a b, dbClosedMsg = a ++ "closed" ++ b := by
  refine ⟨?_, rfl, rfl, ⟨"Database data.db ", "\n", rfl⟩⟩
  cases dbErr <;> rfl

/-! ## Claim C10 (confirmed): `LoadedFromFile` is set before validation -/

/-- Claim C10: for every settings file read and parsed successfully,
`loadSettings` sets `LoadedFromFile` to true before production-mode
validation, so the flag is true in the resulting state regardless of
whether a validation error is returned. -/
theorem loadSettings_sets_loadedFromFile (fileExists : Bool)
    (parsed : Except String AppSettingsBase)
    (orig s : AppSettingsBase) (filename : String)
    (hfe : fileExists = true) (hp : parsed = .ok s) :
    (loadSettings fileExists parsed orig filename).2.LoadedFromFile = true := by
  subst hfe hp
  show (loadSettingsPost s).2.LoadedFromFile = true
  unfold loadSettingsPost
  by_cases hp : s.Production <;> by_cases hb : s.BaseUrl = "" <;>
    by_cases hc : s.WebserverCookieSecret = "" <;>
    by_cases hl : s.WebserverCookieSecret.utf8ByteSize < 32 <;>
    simp [hp, hb, hc, hl]

/-- Witness for claim C10: the flag is true even though the empty-secret
production input makes `loadSettings` return a validation error. -/
theorem loadSettings_sets_loadedFromFile_witness :
    (loadSettings true (.ok exProdEmptySecret) {} ".settings.yml").2.LoadedFromFile
      = true :=
  loadSettings_sets_loadedFromFile true (.ok exProdEmptySecret) {} exProdEmptySecret
    ".settings.yml" rfl rfl
